import Mathlib

/-!
Shallow embedding of the portr port-inspection tool (Rust), covering the
service risk classifier (src/services.rs), the port correlator
(src/port.rs), the process-tree walk (src/port.rs), the Unix termination
executor (src/process.rs) and the container identity rule (src/docker.rs),
together with theorems settling the specification claims about them.
-/

namespace Portr

/-! ## Service risk classifier (src/services.rs) -/

/-- Risk level for killing a service (src/services.rs, enum RiskLevel). -/
inductive RiskLevel where
  | Low
  | Medium
  | High
  | Critical
deriving DecidableEq, Repr

/-- Known service information (src/services.rs, struct ServiceInfo). -/
structure ServiceInfo where
  port : Nat
  name : String
  description : String
  risk : RiskLevel
  process_hints : List String
deriving DecidableEq, Repr

/-- Database of known services (src/services.rs, static KNOWN_SERVICES),
transcribed entry for entry in source order. -/
def KNOWN_SERVICES : List ServiceInfo := [
  { port := 80, name := "HTTP", description := "Web server (Apache, Nginx, IIS)",
    risk := RiskLevel.Medium, process_hints := ["nginx", "apache", "httpd", "iis"] },
  { port := 443, name := "HTTPS", description := "Secure web server",
    risk := RiskLevel.Medium, process_hints := ["nginx", "apache", "httpd", "iis"] },
  { port := 8080, name := "HTTP Alt", description := "Alternative HTTP / Development server",
    risk := RiskLevel.Low, process_hints := ["java", "node", "python"] },
  { port := 8443, name := "HTTPS Alt", description := "Alternative HTTPS",
    risk := RiskLevel.Low, process_hints := ["java", "node"] },
  { port := 3306, name := "MySQL", description := "MySQL/MariaDB database server",
    risk := RiskLevel.Critical, process_hints := ["mysqld", "mariadbd", "mysql"] },
  { port := 5432, name := "PostgreSQL", description := "PostgreSQL database server",
    risk := RiskLevel.Critical, process_hints := ["postgres", "postgresql"] },
  { port := 27017, name := "MongoDB", description := "MongoDB database server",
    risk := RiskLevel.Critical, process_hints := ["mongod", "mongodb"] },
  { port := 6379, name := "Redis", description := "Redis in-memory data store",
    risk := RiskLevel.High, process_hints := ["redis-server", "redis"] },
  { port := 9200, name := "Elasticsearch", description := "Elasticsearch search engine",
    risk := RiskLevel.High, process_hints := ["elasticsearch", "java"] },
  { port := 1433, name := "MSSQL", description := "Microsoft SQL Server",
    risk := RiskLevel.Critical, process_hints := ["sqlservr", "mssql"] },
  { port := 1521, name := "Oracle", description := "Oracle Database",
    risk := RiskLevel.Critical, process_hints := ["oracle", "tnslsnr"] },
  { port := 5984, name := "CouchDB", description := "Apache CouchDB",
    risk := RiskLevel.High, process_hints := ["couchdb", "beam"] },
  { port := 7474, name := "Neo4j", description := "Neo4j Graph Database",
    risk := RiskLevel.High, process_hints := ["neo4j", "java"] },
  { port := 5672, name := "RabbitMQ", description := "RabbitMQ message broker",
    risk := RiskLevel.High, process_hints := ["rabbitmq", "beam", "erlang"] },
  { port := 9092, name := "Kafka", description := "Apache Kafka message broker",
    risk := RiskLevel.High, process_hints := ["kafka", "java"] },
  { port := 4222, name := "NATS", description := "NATS message broker",
    risk := RiskLevel.Medium, process_hints := ["nats-server", "nats"] },
  { port := 3000, name := "Dev Server", description := "Node.js / React / Rails dev server",
    risk := RiskLevel.Low, process_hints := ["node", "ruby", "rails"] },
  { port := 4200, name := "Angular", description := "Angular development server",
    risk := RiskLevel.Low, process_hints := ["node", "ng"] },
  { port := 5000, name := "Flask/ASP.NET", description := "Flask or ASP.NET development server",
    risk := RiskLevel.Low, process_hints := ["python", "flask", "dotnet"] },
  { port := 5173, name := "Vite", description := "Vite development server",
    risk := RiskLevel.Low, process_hints := ["node", "vite"] },
  { port := 8000, name := "Django/PHP", description := "Django or PHP development server",
    risk := RiskLevel.Low, process_hints := ["python", "django", "php"] },
  { port := 9000, name := "PHP-FPM", description := "PHP FastCGI Process Manager",
    risk := RiskLevel.Medium, process_hints := ["php-fpm", "php"] },
  { port := 2375, name := "Docker", description := "Docker daemon (unencrypted)",
    risk := RiskLevel.Critical, process_hints := ["dockerd", "docker"] },
  { port := 2376, name := "Docker TLS", description := "Docker daemon (TLS)",
    risk := RiskLevel.Critical, process_hints := ["dockerd", "docker"] },
  { port := 6443, name := "Kubernetes", description := "Kubernetes API server",
    risk := RiskLevel.Critical, process_hints := ["kube-apiserver", "k8s"] },
  { port := 10250, name := "Kubelet", description := "Kubernetes Kubelet",
    risk := RiskLevel.Critical, process_hints := ["kubelet"] },
  { port := 22, name := "SSH", description := "Secure Shell server",
    risk := RiskLevel.Critical, process_hints := ["sshd", "ssh"] },
  { port := 21, name := "FTP", description := "FTP server",
    risk := RiskLevel.Medium, process_hints := ["vsftpd", "proftpd", "ftpd"] },
  { port := 23, name := "Telnet", description := "Telnet server (insecure)",
    risk := RiskLevel.Medium, process_hints := ["telnetd"] },
  { port := 25, name := "SMTP", description := "Email server (SMTP)",
    risk := RiskLevel.High, process_hints := ["postfix", "sendmail", "exim"] },
  { port := 53, name := "DNS", description := "Domain Name System",
    risk := RiskLevel.Critical, process_hints := ["named", "bind", "dnsmasq"] },
  { port := 67, name := "DHCP", description := "DHCP server",
    risk := RiskLevel.Critical, process_hints := ["dhcpd", "dnsmasq"] },
  { port := 123, name := "NTP", description := "Network Time Protocol",
    risk := RiskLevel.High, process_hints := ["ntpd", "chronyd"] },
  { port := 135, name := "RPC", description := "Windows RPC Endpoint Mapper",
    risk := RiskLevel.Critical, process_hints := ["svchost"] },
  { port := 139, name := "NetBIOS", description := "Windows NetBIOS Session",
    risk := RiskLevel.High, process_hints := ["smbd", "svchost"] },
  { port := 445, name := "SMB", description := "Windows File Sharing (SMB)",
    risk := RiskLevel.Critical, process_hints := ["smbd", "svchost", "System"] },
  { port := 3389, name := "RDP", description := "Windows Remote Desktop",
    risk := RiskLevel.Critical, process_hints := ["svchost", "TermService"] },
  { port := 9090, name := "Prometheus", description := "Prometheus monitoring",
    risk := RiskLevel.Medium, process_hints := ["prometheus"] },
  { port := 3100, name := "Loki", description := "Grafana Loki log aggregation",
    risk := RiskLevel.Medium, process_hints := ["loki"] },
  { port := 3001, name := "Grafana", description := "Grafana dashboard (alt port)",
    risk := RiskLevel.Medium, process_hints := ["grafana"] },
  { port := 9093, name := "Alertmanager", description := "Prometheus Alertmanager",
    risk := RiskLevel.Medium, process_hints := ["alertmanager"] },
  { port := 16686, name := "Jaeger", description := "Jaeger tracing UI",
    risk := RiskLevel.Low, process_hints := ["jaeger"] },
  { port := 11434, name := "Ollama", description := "Ollama LLM server",
    risk := RiskLevel.Low, process_hints := ["ollama"] },
  { port := 1234, name := "LM Studio", description := "LM Studio local LLM",
    risk := RiskLevel.Low, process_hints := ["lm studio", "lmstudio"] },
  { port := 8888, name := "Jupyter", description := "Jupyter Notebook server",
    risk := RiskLevel.Low, process_hints := ["jupyter", "python"] },
  { port := 11211, name := "Memcached", description := "Memcached cache server",
    risk := RiskLevel.High, process_hints := ["memcached"] },
  { port := 9418, name := "Git", description := "Git protocol daemon",
    risk := RiskLevel.Medium, process_hints := ["git-daemon"] },
  { port := 8888, name := "Proxy", description := "HTTP Proxy server",
    risk := RiskLevel.Medium, process_hints := ["squid", "privoxy"] },
  { port := 1080, name := "SOCKS", description := "SOCKS proxy",
    risk := RiskLevel.Medium, process_hints := ["socks", "dante"] }]

/-- Look up a known service by port (src/services.rs, fn lookup):
first match over the table in order. -/
def lookup (port : Nat) : Option ServiceInfo :=
  KNOWN_SERVICES.find? (fun s => s.port == port)

/-- Check if killing this port should require extra confirmation
(src/services.rs, fn requires_confirmation). The inner match mirrors the
matches macro over RiskLevel High | Critical. -/
def requires_confirmation (port : Nat) : Bool :=
  ((lookup port).map (fun s =>
    match s.risk with
    | RiskLevel.High => true
    | RiskLevel.Critical => true
    | _ => false)).getD false

/-! ## Port correlator data model (src/port.rs) -/

/-- Information about a port and its associated process
(src/port.rs, struct PortInfo). -/
structure PortInfo where
  port : Nat
  protocol : String
  pid : Nat
  process_name : String
  process_path : Option String
  local_address : String
  remote_address : Option String
  state : String
  user : Option String
  memory_mb : Float
  cpu_percent : Float
  uptime_secs : Nat
  parent_pid : Option Nat
  parent_name : Option String

/-- Network connection information (src/port.rs, struct NetConnection). -/
structure NetConnection where
  protocol : String
  local_addr : String
  local_port : Nat
  remote_addr : Option String
  remote_port : Option Nat
  state : String
  pid : Option Nat

/-- A process table entry as exposed by the sysinfo crate: the fields of
sysinfo::Process that src/port.rs reads. The OS process table is modelled
as a function from PID to an optional SysProcess. -/
structure SysProcess where
  name : String
  exe : Option String
  user_id : Option String
  memory : Nat
  cpu_usage : Float
  run_time : Nat
  parent : Option Nat

/-- Process information for a PID (src/port.rs, struct ProcessInfo). -/
structure ProcessInfo where
  name : String
  path : Option String
  user : Option String
  memory_mb : Float
  cpu_percent : Float
  uptime_secs : Nat
  parent_pid : Option Nat
  parent_name : Option String

/-- Get process information by PID (src/port.rs, fn get_process_info):
resolves the process in the table, walks one parent hop, and falls back to
the unknown-process sentinel when the PID has vanished. -/
def get_process_info (sys : Nat → Option SysProcess) (pid : Nat) : ProcessInfo :=
  match sys pid with
  | some process =>
    let pp := process.parent.bind (fun ppid => (sys ppid).map (fun par => (ppid, par)))
    { name := process.name
      path := process.exe
      user := process.user_id
      memory_mb := Float.ofNat process.memory / 1024.0 / 1024.0
      cpu_percent := process.cpu_usage
      uptime_secs := process.run_time
      parent_pid := pp.map (fun x => x.1)
      parent_name := pp.map (fun x => x.2.name) }
  | none =>
    { name := "<unknown>"
      path := none
      user := none
      memory_mb := 0.0
      cpu_percent := 0.0
      uptime_secs := 0
      parent_pid := none
      parent_name := none }

/-- The PortInfo record pushed for one connection with a known owning PID
(the loop body of src/port.rs, fn get_listening_ports, lines 63-86). -/
def portInfoOfConn (sys : Nat → Option SysProcess) (conn : NetConnection) (pid : Nat) :
    PortInfo :=
  let process_info := get_process_info sys pid
  { port := conn.local_port
    protocol := conn.protocol
    pid := pid
    process_name := process_info.name
    process_path := process_info.path
    local_address := conn.local_addr ++ ":" ++ toString conn.local_port
    remote_address := conn.remote_addr.map (fun a => a ++ ":" ++ toString (conn.remote_port.getD 0))
    state := conn.state
    user := process_info.user
    memory_mb := process_info.memory_mb
    cpu_percent := process_info.cpu_percent
    uptime_secs := process_info.uptime_secs
    parent_pid := process_info.parent_pid
    parent_name := process_info.parent_name }

/-- The accumulation loop of get_listening_ports: one PortInfo per
connection whose pid is Some, in input order; connections with no pid are
skipped (src/port.rs lines 63-86). -/
def collectPortInfos (sys : Nat → Option SysProcess) : List NetConnection → List PortInfo
  | [] => []
  | conn :: rest =>
    match conn.pid with
    | some pid => portInfoOfConn sys conn pid :: collectPortInfos sys rest
    | none => collectPortInfos sys rest

/-- results.sort_by_key(|p| p.port) (src/port.rs line 89). Rust's
sort_by_key is a stable sort; a stable sort's output is uniquely determined
by the key order plus stability, so the stable insertion sort computes
exactly the same list. -/
def sortedPortInfos (sys : Nat → Option SysProcess) (conns : List NetConnection) :
    List PortInfo :=
  (collectPortInfos sys conns).insertionSort (fun a b => a.port ≤ b.port)

/-- results.retain(|p| seen.insert(p.port)) (src/port.rs lines 92-93):
walk the list in order keeping an element exactly when its port was not
seen before, threading the seen-set explicitly. -/
def dedupByPort : List PortInfo → List Nat → List PortInfo
  | [], _ => []
  | p :: rest, seen =>
    if p.port ∈ seen then dedupByPort rest seen
    else p :: dedupByPort rest (p.port :: seen)

/-- Get all listening ports (src/port.rs, fn get_listening_ports), with the
OS interaction factored out: the process table and the enumerated
connections are parameters, and the Ok value of the Rust function is
returned (the only error path is the enumeration itself, which is a
parameter here). -/
def get_listening_ports (sys : Nat → Option SysProcess) (conns : List NetConnection) :
    List PortInfo :=
  dedupByPort (sortedPortInfos sys conns) []

/-! ## Text parsing helpers of the enumerator backends (src/port.rs) -/

/-- Parse of a nonempty all-digit string to a number below the given bound,
mirroring Rust's str::parse for unsigned integers (which also accepts one
leading plus sign, rejects the empty string and any non-digit character,
and fails on overflow past the type's maximum). -/
def parseUInt (bound : Nat) (cs : List Char) : Option Nat :=
  let cs := match cs with
    | '+' :: rest => rest
    | other => other
  if cs = [] then none
  else if cs.all Char.isDigit then
    let n := cs.foldl (fun n c => n * 10 + (c.toNat - 48)) 0
    if n < bound then some n else none
  else none

/-- str::rfind for the colon character: splits a char list at its last
colon, returning (before, after), or none when there is no colon. -/
def splitAtLastColon : List Char → Option (List Char × List Char)
  | [] => none
  | c :: rest =>
    match splitAtLastColon rest with
    | some (l, r) => some (c :: l, r)
    | none => if c = ':' then some ([], rest) else none

/-- str::find for a single character: splits a char list at the first
occurrence of the target, returning (before, after), or none. -/
def splitAtFirstChar (target : Char) : List Char → Option (List Char × List Char)
  | [] => none
  | c :: rest =>
    if c = target then some ([], rest)
    else (splitAtFirstChar target rest).map (fun p => (c :: p.1, p.2))

/-- str::strip_prefix for the colon character. -/
def stripColon : List Char → Option (List Char)
  | [] => none
  | c :: rest => if c = ':' then some rest else none

/-- str::trim_start_matches for one character: drop every leading copy. -/
def trimLeading (t : Char) : List Char → List Char
  | [] => []
  | c :: rest => if c = t then trimLeading t rest else c :: rest

/-- str::trim_end_matches for one character: drop every trailing copy. -/
def trimTrailing (t : Char) (s : List Char) : List Char :=
  (trimLeading t s.reverse).reverse

/-- Parse Windows netstat address format (src/port.rs, fn parse_address):
bracketed IPv6 is split at the first closing bracket and the rest must be a
colon followed by a u16 port; otherwise the string is split at its last
colon. -/
def parse_address_core (addr : List Char) : Option (List Char × Nat) :=
  if addr.head? = some '[' then
    match splitAtFirstChar ']' addr.tail with
    | some (ip, port_part) =>
      match stripColon port_part with
      | some port_str => (parseUInt 65536 port_str).map (fun port => (ip, port))
      | none => none
    | none => none
  else
    match splitAtLastColon addr with
    | some (ip, port_str) => (parseUInt 65536 port_str).map (fun port => (ip, port))
    | none => none

/-- String-level wrapper for parse_address (src/port.rs lines 385-408). -/
def parse_address (addr : String) : Option (String × Nat) :=
  (parse_address_core addr.data).map (fun p => (String.mk p.1, p.2))

/-- Parse Linux ss address format (src/port.rs, fn parse_linux_address):
split at the last colon, parse the port as u16, and trim leading brackets
and trailing brackets from the address part. -/
def parse_linux_address_core (addr : List Char) : Option (List Char × Nat) :=
  match splitAtLastColon addr with
  | some (ip, port_str) =>
    (parseUInt 65536 port_str).map (fun port => (trimTrailing ']' (trimLeading '[' ip), port))
  | none => none

/-- String-level wrapper for parse_linux_address (src/port.rs lines 411-423). -/
def parse_linux_address (addr : String) : Option (String × Nat) :=
  (parse_linux_address_core addr.data).map (fun p => (String.mk p.1, p.2))

/-- Is this char list an initial segment of the other one? -/
def leadsWith : List Char → List Char → Bool
  | [], _ => true
  | _ :: _, [] => false
  | p :: ps, c :: cs => p = c && leadsWith ps cs

/-- str::find for a substring pattern: the remainder of the char list after
the first occurrence of the pattern, or none when it never occurs. -/
def afterFirst (pat : List Char) : List Char → Option (List Char)
  | [] => if leadsWith pat [] then some [] else none
  | c :: rest =>
    if leadsWith pat (c :: rest) then some ((c :: rest).drop pat.length)
    else afterFirst pat rest

/-- Extract PID from ss output (src/port.rs, fn extract_pid_from_ss): find
the first "pid=", take the following maximal digit run, and parse it as a
u32 (char::is_numeric agrees with is_ascii_digit on the ASCII text ss
emits, and parse would reject any non-ASCII numeral anyway). -/
def extract_pid_from_ss_core (users_str : List Char) : Option Nat :=
  match afterFirst ['p', 'i', 'd', '='] users_str with
  | some rest => parseUInt (2 ^ 32) (rest.takeWhile Char.isDigit)
  | none => none

/-- String-level wrapper for extract_pid_from_ss (src/port.rs lines 426-436). -/
def extract_pid_from_ss (users_str : String) : Option Nat :=
  extract_pid_from_ss_core users_str.data

/-! ## Process tree walk (src/port.rs, fn get_process_tree) -/

/-- The while-let loop of get_process_tree (src/port.rs lines 462-475):
push the current process and follow its parent pointer; stop when the PID
chain ends, the process is not in the table, or the accumulated list has
grown past 20 entries (the guard runs after the push). -/
def treeLoop (sys : Nat → Option SysProcess) (cur : Option Nat)
    (acc : List (Nat × String)) : List (Nat × String) :=
  match cur with
  | none => acc
  | some cpid =>
    match sys cpid with
    | none => acc
    | some process =>
      let grown := acc ++ [(cpid, process.name)]
      if grown.length > 20 then grown
      else treeLoop sys process.parent grown
termination_by 21 - acc.length
decreasing_by
  simp only [grown, List.length_append, List.length_cons, List.length_nil] at *
  omega

/-- Get process tree for a given PID (src/port.rs, fn get_process_tree):
the upward parent-chain walk starting from the given PID with an empty
accumulator. -/
def get_process_tree (sys : Nat → Option SysProcess) (pid : Nat) : List (Nat × String) :=
  treeLoop sys (some pid) []

/-! ## Termination executor (src/process.rs) -/

/-- Unix signals used by the termination executor. -/
inductive Signal where
  | SIGTERM
  | SIGKILL
deriving DecidableEq, Repr

/-- OS error numbers distinguished by kill_unix; the catch-all constructor
carries the errno's Display string, which is what e.to_string() yields. -/
inductive Errno where
  | EPERM
  | ESRCH
  | other (msg : String)
deriving DecidableEq, Repr

/-- Error type (src/error.rs, enum PortrError), restricted to the variants
the claims mention plus the enumeration error. -/
inductive PortrError where
  | NetworkError (msg : String)
  | KillError (pid : Nat) (msg : String)
  | PermissionDenied (msg : String)
  | ProcessNotFound (pid : Nat)
deriving DecidableEq, Repr

/-- The cast pid as i32 (Rust two's-complement conversion of a u32). -/
def u32_as_i32 (n : Nat) : Int :=
  if n % 2 ^ 32 < 2 ^ 31 then (n % 2 ^ 32 : Nat) else (n % 2 ^ 32 : Nat) - 2 ^ 32

/-- The cast pid.as_raw() as u32 (Rust two's-complement conversion of an
i32 back to a u32). -/
def i32_as_u32 (i : Int) : Nat :=
  (i % 2 ^ 32).toNat

/-- Unix kill implementation (src/process.rs, fn kill_unix). The nix
kill(2) binding is a parameter mapping a raw pid and signal to none on
success or the errno on failure. The first component is the Rust return
value; the second instruments the body with the list of (pid, signal)
invocations of the OS kill call, in order, so that single-shot delivery is
visible in the embedding. -/
def kill_unix (osKill : Int → Signal → Option Errno) (pid : Nat) (force : Bool) :
    Except PortrError Unit × List (Int × Signal) :=
  let signal := if force then Signal.SIGKILL else Signal.SIGTERM
  let p : Int := u32_as_i32 pid
  let result : Except PortrError Unit :=
    match osKill p signal with
    | none => Except.ok ()
    | some e =>
      Except.error (match e with
        | Errno.EPERM =>
          PortrError.PermissionDenied
            ("Cannot kill process " ++ toString p ++ ". Try running with sudo.")
        | Errno.ESRCH => PortrError.ProcessNotFound (i32_as_u32 p)
        | Errno.other msg => PortrError.KillError (i32_as_u32 p) msg)
  (result, [(p, signal)])

/-! ## Container identity (src/docker.rs) -/

/-- Port mapping for a container (src/docker.rs, struct PortMapping). -/
structure PortMapping where
  host_port : Option Nat
  container_port : Nat
  protocol : String
deriving DecidableEq, Repr

/-- Information about a Docker container using a port
(src/docker.rs, struct ContainerInfo). -/
structure ContainerInfo where
  id : String
  name : String
  image : String
  status : String
  ports : List PortMapping
deriving DecidableEq, Repr

/-- Stable key for identifying a container across restarts
(src/docker.rs, fn stable_key): name and image, never the id. -/
def ContainerInfo.stable_key (c : ContainerInfo) : String :=
  c.name ++ ":" ++ c.image

/-- Whether two containers match by stable key
(src/docker.rs, fn matches): equal name and equal image. -/
def ContainerInfo.matches (a b : ContainerInfo) : Bool :=
  a.name == b.name && a.image == b.image

/-! ## Concrete inputs used to exercise the theorems -/

/-- A process table with no processes. -/
def sysEmpty : Nat → Option SysProcess := fun _ => none

/-- A listening TCP connection on port 2 owned by PID 5. -/
def connA : NetConnection :=
  { protocol := "TCP", local_addr := "0.0.0.0", local_port := 2,
    remote_addr := none, remote_port := none, state := "LISTEN", pid := some 5 }

/-- A listening TCP connection on port 1 owned by PID 6. -/
def connB : NetConnection :=
  { protocol := "TCP", local_addr := "0.0.0.0", local_port := 1,
    remote_addr := none, remote_port := none, state := "LISTEN", pid := some 6 }

/-- An ss users field whose embedded PID is literally 0. -/
def pid0Row : String := "users:((\"node\",pid=0,fd=21))"

/-- The NetConnection the Linux ss backend builds for a row with users
field pid0Row (src/port.rs lines 273-285): the pid is the raw result of
extract_pid_from_ss, with no positivity check. -/
def pid0Conn : NetConnection :=
  { protocol := "TCP", local_addr := "0.0.0.0", local_port := 3000,
    remote_addr := none, remote_port := none, state := "LISTEN",
    pid := extract_pid_from_ss pid0Row }

/-- A corrupted process table in which every PID resolves to a live
process whose reported parent is PID 1: the parent chain is a self-loop
and the upward walk never runs out of parents. -/
def cyclicSys : Nat → Option SysProcess :=
  fun _ => some { name := "p", exe := none, user_id := none, memory := 0,
                  cpu_usage := 0.0, run_time := 0, parent := some 1 }

/-- Comparison relation of results.sort_by_key(|p| p.port): order by port. -/
instance : IsTotal PortInfo (fun a b => a.port ≤ b.port) :=
  ⟨fun a b => Nat.le_total a.port b.port⟩

instance : IsTrans PortInfo (fun a b => a.port ≤ b.port) :=
  ⟨fun _ _ _ h h2 => Nat.le_trans h h2⟩

/-! ## Correlator lemmas (deduplication after the stable sort) -/

theorem mem_of_mem_dedupByPort :
    ∀ (l : List PortInfo) (seen : List Nat) (q : PortInfo),
      q ∈ dedupByPort l seen → q ∈ l := by
  intro l
  induction l with
  | nil => intro seen q h; simp [dedupByPort] at h
  | cons p rest ih =>
    intro seen q h
    rw [dedupByPort] at h
    by_cases hm : p.port ∈ seen
    · rw [if_pos hm] at h
      exact List.mem_cons_of_mem p (ih seen q h)
    · rw [if_neg hm] at h
      cases h with
      | head => exact List.mem_cons_self p rest
      | tail _ hq => exact List.mem_cons_of_mem p (ih (p.port :: seen) q hq)

theorem port_not_mem_seen_of_mem_dedupByPort :
    ∀ (l : List PortInfo) (seen : List Nat) (q : PortInfo),
      q ∈ dedupByPort l seen → q.port ∉ seen := by
  intro l
  induction l with
  | nil => intro seen q h; simp [dedupByPort] at h
  | cons p rest ih =>
    intro seen q h
    rw [dedupByPort] at h
    by_cases hm : p.port ∈ seen
    · rw [if_pos hm] at h
      exact ih seen q h
    · rw [if_neg hm] at h
      cases h with
      | head => exact hm
      | tail _ hq =>
        intro hs
        exact ih (p.port :: seen) q hq (List.mem_cons_of_mem p.port hs)

theorem dedupByPort_pairwise_lt :
    ∀ (l : List PortInfo) (seen : List Nat),
      l.Pairwise (fun a b => a.port ≤ b.port) →
      (dedupByPort l seen).Pairwise (fun a b => a.port < b.port) := by
  intro l
  induction l with
  | nil => intro seen _; simp [dedupByPort]
  | cons p rest ih =>
    intro seen h
    rw [dedupByPort]
    by_cases hm : p.port ∈ seen
    · rw [if_pos hm]
      exact ih seen h.tail
    · rw [if_neg hm]
      refine List.Pairwise.cons (fun q hq => ?_) (ih (p.port :: seen) h.tail)
      have hq_rest : q ∈ rest := mem_of_mem_dedupByPort rest (p.port :: seen) q hq
      have hle : p.port ≤ q.port := (List.pairwise_cons.mp h).1 q hq_rest
      have hns : q.port ∉ p.port :: seen :=
        port_not_mem_seen_of_mem_dedupByPort rest (p.port :: seen) q hq
      have hne : q.port ≠ p.port := fun he => hns (he ▸ List.mem_cons_self p.port seen)
      omega

theorem dedupByPort_find? :
    ∀ (l : List PortInfo) (seen : List Nat) (q : PortInfo),
      q ∈ dedupByPort l seen →
      l.find? (fun x => x.port == q.port) = some q := by
  intro l
  induction l with
  | nil => intro seen q h; simp [dedupByPort] at h
  | cons p rest ih =>
    intro seen q h
    rw [dedupByPort] at h
    by_cases hm : p.port ∈ seen
    · rw [if_pos hm] at h
      have hns : q.port ∉ seen := port_not_mem_seen_of_mem_dedupByPort rest seen q h
      have hne : ¬ ((fun x => x.port == q.port) p) = true := by
        simp only [beq_iff_eq]
        intro he
        exact hns (he ▸ hm)
      rw [List.find?_cons_of_neg rest hne]
      exact ih seen q h
    · rw [if_neg hm] at h
      cases h with
      | head =>
        exact List.find?_cons_of_pos rest (by simp)
      | tail _ hq =>
        have hns : q.port ∉ p.port :: seen :=
          port_not_mem_seen_of_mem_dedupByPort rest (p.port :: seen) q hq
        have hne : ¬ ((fun x => x.port == q.port) p) = true := by
          simp only [beq_iff_eq]
          intro he
          exact hns (he ▸ List.mem_cons_self p.port seen)
        rw [List.find?_cons_of_neg rest hne]
        exact ih (p.port :: seen) q hq

theorem dedupByPort_covers :
    ∀ (l : List PortInfo) (seen : List Nat) (c : PortInfo),
      c ∈ l →
      c.port ∈ seen ∨ ∃ q ∈ dedupByPort l seen, q.port = c.port := by
  intro l
  induction l with
  | nil => intro seen c h; exact absurd h (List.not_mem_nil c)
  | cons p rest ih =>
    intro seen c h
    rw [dedupByPort]
    by_cases hm : p.port ∈ seen
    · rw [if_pos hm]
      cases h with
      | head => exact Or.inl hm
      | tail _ hc => exact ih seen c hc
    · rw [if_neg hm]
      cases h with
      | head =>
        exact Or.inr ⟨p, List.mem_cons_self _ _, rfl⟩
      | tail _ hc =>
        rcases ih (p.port :: seen) c hc with hs | ⟨q, hq, hqp⟩
        · rcases List.mem_cons.mp hs with he | hs2
          · exact Or.inr ⟨p, List.mem_cons_self _ _, he.symm⟩
          · exact Or.inl hs2
        · exact Or.inr ⟨q, List.mem_cons_of_mem p hq, hqp⟩

theorem sortedPortInfos_sorted (sys : Nat → Option SysProcess) (conns : List NetConnection) :
    (sortedPortInfos sys conns).Pairwise (fun a b => a.port ≤ b.port) :=
  List.sorted_insertionSort _ _

/-- C1: for every snapshot, get_listening_ports returns entries sorted
strictly ascending by port with no duplicate port values; when several
records share a port, the entry kept is exactly the first occurrence in
the sorted list (it is what find? by that port returns there), the rest
are discarded, and every port of the sorted list is still represented, so
callers see at most one PortInfo per port. -/
theorem portr_c1 (sys : Nat → Option SysProcess) (conns : List NetConnection) :
    (get_listening_ports sys conns).Pairwise (fun a b => a.port < b.port)
    ∧ (∀ q ∈ get_listening_ports sys conns,
        (sortedPortInfos sys conns).find? (fun x => x.port == q.port) = some q)
    ∧ ∀ c ∈ sortedPortInfos sys conns,
        ∃ q ∈ get_listening_ports sys conns, q.port = c.port := by
  refine ⟨dedupByPort_pairwise_lt _ [] (sortedPortInfos_sorted sys conns),
    fun q hq => dedupByPort_find? _ [] q hq, fun c hc => ?_⟩
  rcases dedupByPort_covers (sortedPortInfos sys conns) [] c hc with h | h
  · exact absurd h (List.not_mem_nil _)
  · exact h

/-- Witness for C1: on the concrete two-connection snapshot with ports 2
and 1, the kept entry for port 1 is the first port-1 element of the
sorted list. -/
theorem portr_c1_witness :
    (sortedPortInfos sysEmpty [connA, connB]).find?
        (fun x => x.port == (portInfoOfConn sysEmpty connB 6).port)
      = some (portInfoOfConn sysEmpty connB 6) :=
  (portr_c1 sysEmpty [connA, connB]).2.1 (portInfoOfConn sysEmpty connB 6)
    (List.Mem.head _)

/-! ## Classifier theorems -/

/-- C2: requires_confirmation(p) is true exactly when lookup(p) finds a
service whose risk tier is High or Critical; it is therefore false when
lookup(p) is none and when the tier is Low or Medium. -/
theorem portr_c2 (port : Nat) :
    requires_confirmation port = true ↔
      ∃ s, lookup port = some s ∧
        (s.risk = RiskLevel.High ∨ s.risk = RiskLevel.Critical) := by
  unfold requires_confirmation
  cases h : lookup port with
  | none => simp [h]
  | some s =>
    constructor
    · intro ht
      simp only [Option.map_some', Option.getD_some] at ht
      cases hr : s.risk with
      | Low => rw [hr] at ht; exact absurd ht (by decide)
      | Medium => rw [hr] at ht; exact absurd ht (by decide)
      | High => exact ⟨s, rfl, Or.inl hr⟩
      | Critical => exact ⟨s, rfl, Or.inr hr⟩
    · rintro ⟨t, ht, hrisk⟩
      injection ht with hts
      subst hts
      simp only [Option.map_some', Option.getD_some]
      rcases hrisk with hr | hr <;> rw [hr]

/-- C3: the static classifier's fixed values: 3306 is MySQL/Critical,
5432 is PostgreSQL/Critical, 6379 is Redis/High, 3000 is Dev Server/Low,
and 54321 is unknown. -/
theorem portr_c3 :
    (lookup 3306).map (fun s => (s.name, s.risk)) = some ("MySQL", RiskLevel.Critical)
    ∧ (lookup 5432).map (fun s => (s.name, s.risk)) = some ("PostgreSQL", RiskLevel.Critical)
    ∧ (lookup 6379).map (fun s => (s.name, s.risk)) = some ("Redis", RiskLevel.High)
    ∧ (lookup 3000).map (fun s => (s.name, s.risk)) = some ("Dev Server", RiskLevel.Low)
    ∧ lookup 54321 = none := by
  refine ⟨?_, ?_, ?_, ?_, ?_⟩ <;> rfl

/-- C10: the KNOWN_SERVICES table holds two port-8888 entries, Jupyter/Low
then Proxy/Medium; lookup scans in order, so port 8888 always classifies
as Jupyter/Low, requires_confirmation(8888) is false, and no input ever
makes lookup return the Proxy entry. -/
theorem portr_c10 :
    (KNOWN_SERVICES.filter (fun s => s.port == 8888)).map (fun s => (s.name, s.risk))
        = [("Jupyter", RiskLevel.Low), ("Proxy", RiskLevel.Medium)]
    ∧ (lookup 8888).map (fun s => (s.name, s.risk)) = some ("Jupyter", RiskLevel.Low)
    ∧ requires_confirmation 8888 = false
    ∧ ∀ p : Nat, ((lookup p).all (fun s => s.name != "Proxy")) = true := by
  refine ⟨by rfl, by rfl, by rfl, ?_⟩
  intro p
  cases h : lookup p with
  | none => rfl
  | some s =>
    show (s.name != "Proxy") = true
    by_cases hname : s.name = "Proxy"
    · exfalso
      have h2 : KNOWN_SERVICES.find? (fun t => t.port == p) = some s := h
      have hmem : s ∈ KNOWN_SERVICES := List.mem_of_find?_eq_some h2
      have hport := List.find?_some h2
      have hp : s.port = p := by simpa using hport
      have h8888 : s.port = 8888 := by
        have hall : ∀ x ∈ KNOWN_SERVICES, x.name = "Proxy" → x.port = 8888 := by decide
        exact hall s hmem hname
      have hp8888 : p = 8888 := by omega
      rw [hp8888] at h
      have hju : (lookup 8888).map (fun t => t.name) = some "Jupyter" := by rfl
      rw [h] at hju
      simp only [Option.map_some', Option.some.injEq] at hju
      rw [hju] at hname
      exact absurd hname (by decide)
    · exact bne_iff_ne.mpr hname

/-! ## Container identity theorem -/

/-- C7: two ContainerInfo values compare as the same container exactly when
their names and images agree; the id (and every other field) plays no role,
and changing the name or the image breaks the match. -/
theorem portr_c7 (a b : ContainerInfo) :
    a.matches b = true ↔ (a.name = b.name ∧ a.image = b.image) := by
  simp [ContainerInfo.matches]

/-! ## Termination executor theorems -/

theorem u32_roundtrip (n : Nat) (h : n < 2 ^ 32) : i32_as_u32 (u32_as_i32 n) = n := by
  unfold u32_as_i32 i32_as_u32
  split <;> omega

/-- C4: kill_unix maps OS failures to exactly three error kinds: ESRCH
yields ProcessNotFound carrying the pid, EPERM yields PermissionDenied
with the sudo escalation hint, and any other errno yields KillError
carrying the pid and the errno's message. -/
theorem portr_c4 (osKill : Int → Signal → Option Errno) (pid : Nat) (force : Bool)
    (hpid : pid < 2 ^ 32) :
    (osKill (u32_as_i32 pid) (if force then Signal.SIGKILL else Signal.SIGTERM)
        = some Errno.ESRCH →
      (kill_unix osKill pid force).1 = Except.error (PortrError.ProcessNotFound pid))
    ∧ (osKill (u32_as_i32 pid) (if force then Signal.SIGKILL else Signal.SIGTERM)
        = some Errno.EPERM →
      (kill_unix osKill pid force).1 = Except.error (PortrError.PermissionDenied
        ("Cannot kill process " ++ toString (u32_as_i32 pid) ++ ". Try running with sudo.")))
    ∧ ∀ msg : String,
        osKill (u32_as_i32 pid) (if force then Signal.SIGKILL else Signal.SIGTERM)
            = some (Errno.other msg) →
        (kill_unix osKill pid force).1 = Except.error (PortrError.KillError pid msg) := by
  refine ⟨fun h => ?_, fun h => ?_, fun msg h => ?_⟩ <;>
    simp [kill_unix, h, u32_roundtrip pid hpid]

/-- Witness for C4: killing a nonexistent PID 12345 (the OS reports ESRCH)
yields ProcessNotFound 12345. -/
theorem portr_c4_witness :
    (kill_unix (fun _ _ => some Errno.ESRCH) 12345 false).1
      = Except.error (PortrError.ProcessNotFound 12345) :=
  (portr_c4 (fun _ _ => some Errno.ESRCH) 12345 false (by decide)).1 rfl

/-- C6: kill_unix invokes the OS kill exactly once, addressed to the raw
pid, with SIGTERM when forceful is false and SIGKILL when forceful is
true; the call's outcome alone decides success. -/
theorem portr_c6 (osKill : Int → Signal → Option Errno) (pid : Nat) (force : Bool) :
    (kill_unix osKill pid force).2
        = [(u32_as_i32 pid, if force then Signal.SIGKILL else Signal.SIGTERM)]
    ∧ ((kill_unix osKill pid force).1 = Except.ok ()
        ↔ osKill (u32_as_i32 pid) (if force then Signal.SIGKILL else Signal.SIGTERM) = none) := by
  constructor
  · rfl
  · cases h : osKill (u32_as_i32 pid) (if force then Signal.SIGKILL else Signal.SIGTERM) with
    | none => simp [kill_unix, h]
    | some e => simp [kill_unix, h]

/-! ## Process tree theorems -/

theorem treeLoop_none (sys : Nat → Option SysProcess) (acc : List (Nat × String)) :
    treeLoop sys none acc = acc := by
  rw [treeLoop]

theorem treeLoop_dead (sys : Nat → Option SysProcess) (cpid : Nat)
    (acc : List (Nat × String)) (h : sys cpid = none) :
    treeLoop sys (some cpid) acc = acc := by
  rw [treeLoop, h]

theorem treeLoop_alive (sys : Nat → Option SysProcess) (cpid : Nat)
    (acc : List (Nat × String)) (process : SysProcess) (h : sys cpid = some process) :
    treeLoop sys (some cpid) acc =
      (if (acc ++ [(cpid, process.name)]).length > 20 then acc ++ [(cpid, process.name)]
       else treeLoop sys process.parent (acc ++ [(cpid, process.name)])) := by
  rw [treeLoop, h]

theorem treeLoop_length_le (sys : Nat → Option SysProcess) :
    ∀ (n : Nat) (cur : Option Nat) (acc : List (Nat × String)),
      21 - acc.length ≤ n → acc.length ≤ 20 →
      (treeLoop sys cur acc).length ≤ 21 := by
  intro n
  induction n with
  | zero => intro cur acc hn hlen; omega
  | succ n ih =>
    intro cur acc hn hlen
    match cur with
    | none => rw [treeLoop_none]; omega
    | some cpid =>
      cases hp : sys cpid with
      | none => rw [treeLoop_dead sys cpid acc hp]; omega
      | some process =>
        rw [treeLoop_alive sys cpid acc process hp]
        by_cases hg : (acc ++ [(cpid, process.name)]).length > 20
        · rw [if_pos hg]
          simp only [List.length_append, List.length_cons, List.length_nil]
          omega
        · rw [if_neg hg]
          apply ih
          · simp only [List.length_append, List.length_cons, List.length_nil]
            omega
          · simp only [List.length_append, List.length_cons, List.length_nil,
              Nat.not_lt] at hg ⊢
            omega

/-- C5 amended: get_process_tree never returns more than 21 entries, for
every process table including cyclic or corrupted parent chains (the
guard fires only after the 21st push, so the bound is 21, not 20). -/
theorem portr_c5 (sys : Nat → Option SysProcess) (pid : Nat) :
    (get_process_tree sys pid).length ≤ 21 := by
  rw [get_process_tree]
  exact treeLoop_length_le sys 21 (some pid) [] (by simp) (by simp)

theorem treeLoop_cyclic_length :
    ∀ (n : Nat) (acc : List (Nat × String)),
      21 - acc.length ≤ n → acc.length ≤ 20 →
      (treeLoop cyclicSys (some 1) acc).length = 21 := by
  intro n
  induction n with
  | zero => intro acc hn hlen; omega
  | succ n ih =>
    intro acc hn hlen
    rw [treeLoop_alive cyclicSys 1 acc _ rfl]
    by_cases hg : (acc ++ [(1, "p")]).length > 20
    · rw [if_pos hg]
      simp only [List.length_append, List.length_cons, List.length_nil] at hg ⊢
      omega
    · rw [if_neg hg]
      have h1 : 21 - (acc ++ [(1, "p")]).length ≤ n := by
        simp only [List.length_append, List.length_cons, List.length_nil]
        omega
      have h2 : (acc ++ [(1, "p")]).length ≤ 20 := by
        simp only [List.length_append, List.length_cons, List.length_nil,
          Nat.not_lt] at hg
        simp only [List.length_append, List.length_cons, List.length_nil]
        omega
      exact ih (acc ++ [(1, "p")]) h1 h2

/-- C5 counterexample: on the cyclic process table cyclicSys, the walk
starting at PID 1 returns 21 entries, so the claimed bound of 20 ancestor
entries fails. -/
theorem portr_c5_counterexample :
    ¬ (get_process_tree cyclicSys 1).length ≤ 20 := by
  have h : (get_process_tree cyclicSys 1).length = 21 := by
    rw [get_process_tree]
    exact treeLoop_cyclic_length 21 [] (by simp) (by simp)
  omega

/-! ## Ownerless-connection handling -/

theorem collectPortInfos_filter (sys : Nat → Option SysProcess) :
    ∀ conns : List NetConnection,
      collectPortInfos sys conns
        = collectPortInfos sys (conns.filter (fun c => c.pid.isSome)) := by
  intro conns
  induction conns with
  | nil => rfl
  | cons c rest ih =>
    cases hp : c.pid with
    | none =>
      have hf : ¬ ((fun c : NetConnection => c.pid.isSome) c) = true := by
        simp [hp]
      rw [@List.filter_cons_of_neg NetConnection (fun c => c.pid.isSome) c rest hf]
      rw [collectPortInfos, hp]
      exact ih
    | some pid =>
      have hf : ((fun c : NetConnection => c.pid.isSome) c) = true := by
        simp [hp]
      rw [@List.filter_cons_of_pos NetConnection (fun c => c.pid.isSome) c rest hf]
      rw [collectPortInfos, hp, collectPortInfos, hp, ih]

/-- C8 amended: a connection without a known owning PID contributes no
PortInfo to the correlated result (the output only depends on the
connections whose pid is Some); an ss users field with no parsable PID
digits yields no owner; but an ss row whose embedded PID is literally 0 is
parsed as owner PID 0 by extract_pid_from_ss and kept by the correlator —
the 0-means-no-owner mapping exists only in the Windows and macOS
backends, not the Linux one. -/
theorem portr_c8 :
    (∀ (sys : Nat → Option SysProcess) (conns : List NetConnection),
      get_listening_ports sys conns
        = get_listening_ports sys (conns.filter (fun c => c.pid.isSome)))
    ∧ extract_pid_from_ss "users:((\"node\",fd=21))" = none
    ∧ extract_pid_from_ss "users:((\"node\",pid=,fd=21))" = none
    ∧ extract_pid_from_ss "users:((\"node\",pid=0,fd=21))" = some 0
    ∧ ∀ sys : Nat → Option SysProcess,
        (get_listening_ports sys [pid0Conn]).map (fun p => p.pid) = [0] := by
  refine ⟨fun sys conns => ?_, by decide, by decide, by decide, fun sys => rfl⟩
  unfold get_listening_ports sortedPortInfos
  rw [collectPortInfos_filter sys conns]

/-- C8 counterexample: the claim says an embedded PID of 0 is treated as
"no owner known"; on the Linux backend it is not — extract_pid_from_ss
parses it as Some 0, and the row survives correlation as an entry with
owner PID 0 instead of being dropped. -/
theorem portr_c8_counterexample :
    extract_pid_from_ss "users:((\"node\",pid=0,fd=21))" = some 0
    ∧ (get_listening_ports sysEmpty [pid0Conn]).map (fun p => p.pid) = [0] :=
  ⟨by decide, rfl⟩

/-! ## Address parsing theorems -/

theorem splitAtLastColon_eq_none :
    ∀ (l : List Char), ':' ∉ l → splitAtLastColon l = none := by
  intro l
  induction l with
  | nil => intro _; rfl
  | cons c rest ih =>
    intro h
    have hc : ¬ c = ':' := fun he => h (by rw [he]; exact List.mem_cons_self ':' rest)
    have hrest : ':' ∉ rest := fun hm => h (List.mem_cons_of_mem c hm)
    rw [splitAtLastColon, ih hrest]
    simp [hc]

theorem splitAtFirstChar_snd_subset (t : Char) :
    ∀ (l a b : List Char), splitAtFirstChar t l = some (a, b) →
      ∀ c, c ∈ b → c ∈ l := by
  intro l
  induction l with
  | nil => intro a b h; simp [splitAtFirstChar] at h
  | cons x rest ih =>
    intro a b h c hc
    rw [splitAtFirstChar] at h
    by_cases hx : x = t
    · rw [if_pos hx] at h
      injection h with h2
      have hb : rest = b := congrArg Prod.snd h2
      exact List.mem_cons_of_mem x (hb ▸ hc)
    · rw [if_neg hx] at h
      cases hsp : splitAtFirstChar t rest with
      | none => rw [hsp] at h; simp at h
      | some p =>
        rw [hsp] at h
        simp only [Option.map_some', Option.some.injEq] at h
        have hb : p.2 = b := congrArg Prod.snd h
        exact List.mem_cons_of_mem x (ih p.1 p.2 (by rw [hsp]) c (hb ▸ hc))

theorem parse_address_core_eq_none (l : List Char) (h : ':' ∉ l) :
    parse_address_core l = none := by
  rw [parse_address_core]
  by_cases hhead : l.head? = some '['
  · rw [if_pos hhead]
    cases hsp : splitAtFirstChar ']' l.tail with
    | none => rfl
    | some p =>
      obtain ⟨a, b⟩ := p
      cases b with
      | nil => rfl
      | cons c rest2 =>
        have hctail : c ∈ l.tail :=
          splitAtFirstChar_snd_subset ']' l.tail a (c :: rest2) (by rw [hsp]) c
            (List.mem_cons_self c rest2)
        have hcl : c ∈ l := by
          cases l with
          | nil => simp at hctail
          | cons x xs => exact List.mem_cons_of_mem x hctail
        have hc : ¬ c = ':' := fun he => h (he ▸ hcl)
        simp [stripColon, hc]
  · rw [if_neg hhead]
    rw [splitAtLastColon_eq_none l h]

theorem parse_linux_address_core_eq_none (l : List Char) (h : ':' ∉ l) :
    parse_linux_address_core l = none := by
  rw [parse_linux_address_core, splitAtLastColon_eq_none l h]

/-- C9: address parsing on both text backends: "0.0.0.0:3000" parses to
(0.0.0.0, 3000), "[::1]:8080" to (::1, 8080), "[::]:3000" to (::, 3000),
and a string with no colon at all (hence no trailing :port) parses to
none on both, so the row is skipped rather than crashing. -/
theorem portr_c9 :
    parse_address "0.0.0.0:3000" = some ("0.0.0.0", 3000)
    ∧ parse_address "[::1]:8080" = some ("::1", 8080)
    ∧ parse_address "[::]:3000" = some ("::", 3000)
    ∧ parse_linux_address "0.0.0.0:3000" = some ("0.0.0.0", 3000)
    ∧ parse_linux_address "[::1]:8080" = some ("::1", 8080)
    ∧ parse_linux_address "[::]:3000" = some ("::", 3000)
    ∧ ∀ s : String, ':' ∉ s.data →
        parse_address s = none ∧ parse_linux_address s = none := by
  refine ⟨by decide, by decide, by decide, by decide, by decide, by decide,
    fun s h => ⟨?_, ?_⟩⟩
  · unfold parse_address
    rw [parse_address_core_eq_none s.data h]
    rfl
  · unfold parse_linux_address
    rw [parse_linux_address_core_eq_none s.data h]
    rfl

/-- Witness for C9: the string invalid has no colon, and both parsers
reject it. -/
theorem portr_c9_witness :
    parse_address "invalid" = none ∧ parse_linux_address "invalid" = none :=
  portr_c9.2.2.2.2.2.2 "invalid" (by decide)

end Portr
